import Mathlib

/-!
Verification development for the COVID-19 diagnosis expert system.

The repository contains two programs built on a forward-chaining rule
engine: `covid_expert_system.py` (eight diagnosis rules, a facade
`diagnose`) and `PY.py` (two rules, a facade `run_system`).  The rule
texts, the facade logic and the result extraction are translated from the
source files.  The rule-matching, agenda and fixpoint-execution semantics
belong to the external CLIPS engine, which is not part of the repository
sources; those parts are modelled from the specification (sections 4.3
to 4.5): declared order is priority, the agenda re-scans the rule base
from the start after every firing, negated-existential conditions are
evaluated against the current fact store, and every fired (rule, binding)
pair is recorded so that it never fires twice.
-/

set_option maxHeartbeats 4000000

namespace Covid

/-- Symbol values allowed for the six observation slots
(source: deftemplate patient, allowed-symbols yes no). -/
inductive Sym where
  | yes
  | no
deriving DecidableEq

/-- Risk levels of the diagnosis template
(source: deftemplate diagnosis, allowed-symbols low medium high critical). -/
inductive Risk where
  | low
  | medium
  | high
  | critical
deriving DecidableEq

/-- String form of a risk symbol, as produced by str(fact[risk-level]). -/
def Risk.toStr : Risk → String
  | .low => "low"
  | .medium => "medium"
  | .high => "high"
  | .critical => "critical"

/-- A patient fact (source: deftemplate patient in setup_rules). -/
structure Patient where
  name : String
  fever : Sym
  cough : Sym
  breathingDifficulty : Sym
  fatigue : Sym
  lossOfTasteSmell : Sym
  contactWithPositive : Sym
deriving DecidableEq

/-- A diagnosis fact (source: deftemplate diagnosis in setup_rules). -/
structure DiagnosisFact where
  patientName : String
  result : String
  recommendation : String
  riskLevel : Risk
deriving DecidableEq

/-- A fact of the working memory: either a patient observation fact or a
diagnosis fact.  These are the only two templates of the main program. -/
inductive Fact where
  | patient (p : Patient)
  | diagnosis (d : DiagnosisFact)
deriving DecidableEq

/-- Modelled from the spec: the Fact Store assert operation (section 4.1).
Inserting a fact identical to an existing one is a no-op; otherwise the
fact is appended in insertion order. -/
def assertFact (s : List Fact) (f : Fact) : List Fact :=
  if f ∈ s then s else s ++ [f]

/-- Modelled from the spec: the Fact Store reset operation (section 4.1),
the model of env.reset() at the start of diagnose.  All facts are
discarded. -/
def resetStore (_s : List Fact) : List Fact := []

/-- The patient facts currently in the store, in insertion order. -/
def patientFacts : List Fact → List Patient
  | [] => []
  | Fact.patient p :: rest => p :: patientFacts rest
  | Fact.diagnosis _ :: rest => patientFacts rest

/-- The diagnosis facts currently in the store, in insertion order
(the order env.facts() iterates them in diagnose). -/
def diagFacts : List Fact → List DiagnosisFact
  | [] => []
  | Fact.patient _ :: rest => diagFacts rest
  | Fact.diagnosis d :: rest => d :: diagFacts rest

/-- A rule of the main program: positive slot constraints on the patient
fact binding the subject name, an optional negated-existential pattern
over diagnosis facts (with the bound name substituted), and the diagnosis
fact asserted by the action. -/
structure RuleDef where
  rname : String
  guard : Patient → Bool
  negPat : Option (String → DiagnosisFact → Bool)
  act : String → DiagnosisFact

/-- Rule 1 of setup_rules (source: defrule critical-case): fever, cough,
breathing difficulty and fatigue all yes; no negated condition. -/
def criticalCase : RuleDef where
  rname := "critical-case"
  guard := fun p =>
    decide (p.fever = Sym.yes ∧ p.cough = Sym.yes ∧
      p.breathingDifficulty = Sym.yes ∧ p.fatigue = Sym.yes)
  negPat := none
  act := fun n =>
    { patientName := n
      result := "CRITICAL - Severe COVID-19 Symptoms"
      recommendation := "EMERGENCY: Seek immediate medical attention. Call emergency services. Severe respiratory distress detected."
      riskLevel := Risk.critical }

/-- Rule 2 of setup_rules (source: defrule high-risk-covid-breathing):
fever, cough and breathing difficulty yes; negated condition: no critical
diagnosis exists for the same patient name. -/
def highRiskCovidBreathing : RuleDef where
  rname := "high-risk-covid-breathing"
  guard := fun p =>
    decide (p.fever = Sym.yes ∧ p.cough = Sym.yes ∧
      p.breathingDifficulty = Sym.yes)
  negPat := some fun n d => decide (d.patientName = n ∧ d.riskLevel = Risk.critical)
  act := fun n =>
    { patientName := n
      result := "HIGH RISK for COVID-19"
      recommendation := "URGENT: Get PCR test immediately. Self-isolate. Contact healthcare provider. Monitor oxygen levels."
      riskLevel := Risk.high }

/-- Rule 3 of setup_rules (source: defrule high-risk-covid-taste-smell):
fever, cough and loss of taste or smell yes; negated condition: no
diagnosis of any risk level exists for the same patient name. -/
def highRiskCovidTasteSmell : RuleDef where
  rname := "high-risk-covid-taste-smell"
  guard := fun p =>
    decide (p.fever = Sym.yes ∧ p.cough = Sym.yes ∧
      p.lossOfTasteSmell = Sym.yes)
  negPat := some fun n d => decide (d.patientName = n)
  act := fun n =>
    { patientName := n
      result := "HIGH RISK for COVID-19"
      recommendation := "URGENT: Get PCR test immediately. Self-isolate. Contact healthcare provider. Monitor symptoms closely."
      riskLevel := Risk.high }

/-- Rule 4 of setup_rules (source: defrule medium-risk-fever-fatigue). -/
def mediumRiskFeverFatigue : RuleDef where
  rname := "medium-risk-fever-fatigue"
  guard := fun p => decide (p.fever = Sym.yes ∧ p.fatigue = Sym.yes)
  negPat := some fun n d => decide (d.patientName = n)
  act := fun n =>
    { patientName := n
      result := "MEDIUM RISK for COVID-19"
      recommendation := "Get tested for COVID-19. Self-monitor symptoms. Avoid contact with others. Rest and stay hydrated."
      riskLevel := Risk.medium }

/-- Rule 5 of setup_rules (source: defrule medium-risk-cough-fatigue). -/
def mediumRiskCoughFatigue : RuleDef where
  rname := "medium-risk-cough-fatigue"
  guard := fun p => decide (p.cough = Sym.yes ∧ p.fatigue = Sym.yes)
  negPat := some fun n d => decide (d.patientName = n)
  act := fun n =>
    { patientName := n
      result := "MEDIUM RISK for COVID-19"
      recommendation := "Get tested for COVID-19. Self-monitor symptoms. Avoid contact with others. Rest and stay hydrated."
      riskLevel := Risk.medium }

/-- Rule 6 of setup_rules (source: defrule medium-risk-contact-fever). -/
def mediumRiskContactFever : RuleDef where
  rname := "medium-risk-contact-fever"
  guard := fun p => decide (p.contactWithPositive = Sym.yes ∧ p.fever = Sym.yes)
  negPat := some fun n d => decide (d.patientName = n)
  act := fun n =>
    { patientName := n
      result := "MEDIUM RISK for COVID-19"
      recommendation := "Get tested for COVID-19 due to exposure. Self-isolate until test results. Monitor symptoms daily."
      riskLevel := Risk.medium }

/-- Rule 7 of setup_rules (source: defrule medium-risk-contact-cough). -/
def mediumRiskContactCough : RuleDef where
  rname := "medium-risk-contact-cough"
  guard := fun p => decide (p.contactWithPositive = Sym.yes ∧ p.cough = Sym.yes)
  negPat := some fun n d => decide (d.patientName = n)
  act := fun n =>
    { patientName := n
      result := "MEDIUM RISK for COVID-19"
      recommendation := "Get tested for COVID-19 due to exposure. Self-isolate until test results. Monitor symptoms daily."
      riskLevel := Risk.medium }

/-- Rule 8 of setup_rules (source: defrule low-risk-assessment): matches
any patient fact; negated condition: no diagnosis exists for the name. -/
def lowRiskAssessment : RuleDef where
  rname := "low-risk-assessment"
  guard := fun _ => true
  negPat := some fun n d => decide (d.patientName = n)
  act := fun n =>
    { patientName := n
      result := "LOW RISK for COVID-19"
      recommendation := "Symptoms appear mild. Continue monitoring. Practice good hygiene. Consult doctor if symptoms worsen."
      riskLevel := Risk.low }

/-- The rule base in declared order (source: setup_rules builds the eight
rules in exactly this order; the spec makes declared order the priority). -/
def rules : List RuleDef :=
  [criticalCase, highRiskCovidBreathing, highRiskCovidTasteSmell,
   mediumRiskFeverFatigue, mediumRiskCoughFatigue, mediumRiskContactFever,
   mediumRiskContactCough, lowRiskAssessment]

/-- Modelled from the spec: negated-existential evaluation (section 4.3).
A binding survives only if no diagnosis fact currently in the store
matches the negated pattern with the bound name substituted. -/
def negSatisfied (r : RuleDef) (s : List Fact) (n : String) : Bool :=
  match r.negPat with
  | none => true
  | some pat => !((diagFacts s).any (pat n))

/-- Modelled from the spec: the Matcher (section 4.3).  The bindings of a
rule are the names of the patient facts satisfying its positive slot
constraints, kept only when the negated condition currently holds. -/
def survivors (r : RuleDef) (s : List Fact) : List String :=
  (((patientFacts s).filter r.guard).map Patient.name).filter (negSatisfied r s)

/-- Modelled from the spec: duplicate-firing suppression (section 4.4).
A (rule index, binding) pair already recorded as fired is not firable. -/
def notYetFired (i : Nat) (fired : List (Nat × String)) (n : String) : Bool :=
  !(fired.any fun q => decide (q = (i, n)))

/-- First surviving binding of rule number i that has not fired yet. -/
def firstNewBinding (i : Nat) (fired : List (Nat × String)) : List String → Option String
  | [] => none
  | n :: rest =>
    if notYetFired i fired n then some n else firstNewBinding i fired rest

/-- Modelled from the spec: the Agenda scan (section 4.4), over a suffix
of the rule base whose first rule has index i.  Returns the first rule in
declared order with a new surviving binding, with that binding. -/
def nextFirableFrom : List RuleDef → Nat → List Fact → List (Nat × String) → Option (Nat × RuleDef × String)
  | [], _, _, _ => none
  | r :: rest, i, s, fired =>
    match firstNewBinding i fired (survivors r s) with
    | some n => some (i, r, n)
    | none => nextFirableFrom rest (i + 1) s fired

/-- Modelled from the spec: Agenda.next_firable (section 4.4) over the
whole rule base. -/
def nextFirable (s : List Fact) (fired : List (Nat × String)) : Option (Nat × RuleDef × String) :=
  nextFirableFrom rules 0 s fired

/-- Modelled from the spec: the Execution Engine loop (section 4.5) with
the recommended defensive iteration guard as fuel.  Each step asks the
agenda for the next firable instance, fires it by asserting the action
fact, records the fired pair, and stops at the fixpoint.  Returns the
final store and the chronological trace of fired (rule index, binding)
pairs. -/
def runAux : Nat → List Fact → List (Nat × String) → List Fact × List (Nat × String)
  | 0, s, fired => (s, fired)
  | fuel + 1, s, fired =>
    match nextFirable s fired with
    | none => (s, fired)
    | some (i, r, n) =>
      runAux fuel (assertFact s (Fact.diagnosis (r.act n))) (fired ++ [(i, n)])

/-- Modelled from the spec: the defensive maximum-iteration guard
(section 4.5). -/
def maxIterations : Nat := 100

/-- One full engine run from a store with nothing fired yet, the model of
env.run() inside diagnose. -/
def runEngine (s : List Fact) : List Fact × List (Nat × String) :=
  runAux maxIterations s []

/-- A patient_data dictionary: the subject record handed to diagnose
(source: diagnose argument patient_data, a dict of string values). -/
abbrev PatientData := List (String × String)

/-- First value bound to a key in the dictionary, none when the key is
missing. -/
def lookupSlot (d : PatientData) (k : String) : Option String :=
  match d with
  | [] => none
  | kv :: rest => if kv.1 = k then some kv.2 else lookupSlot rest k

/-- Allowed-symbols check of the patient template: only yes and no parse
(source: deftemplate patient allowed-symbols yes no, enforced by CLIPS
when the observation fact string is asserted). -/
def parseSym (v : String) : Option Sym :=
  if v = "yes" then some Sym.yes else if v = "no" then some Sym.no else none

/-- Reading a required slot from the dictionary; a missing key is the
KeyError path of building the fact string in diagnose, reported as a
descriptive invalid-input error. -/
def getSlot (d : PatientData) (k : String) : Except String String :=
  match lookupSlot d k with
  | some v => Except.ok v
  | none => Except.error ("InvalidInput: missing required slot " ++ k)

/-- Reading and validating an observation slot; a value outside yes and
no is the CLIPS allowed-symbols rejection of assert_string, reported as a
descriptive invalid-input error. -/
def getSymSlot (d : PatientData) (k : String) : Except String Sym :=
  match getSlot d k with
  | Except.error e => Except.error e
  | Except.ok v =>
    match parseSym v with
    | some x => Except.ok x
    | none =>
      Except.error ("InvalidInput: value for slot " ++ k ++ " must be yes or no, got " ++ v)

/-- Building the observation fact from patient_data, in the order the
fact string interpolates the dictionary (source: diagnose, fact_string).
Any missing key or invalid observation value fails before any fact is
asserted. -/
def buildPatient (d : PatientData) : Except String Patient := do
  let n ← getSlot d "name"
  let fe ← getSymSlot d "fever"
  let co ← getSymSlot d "cough"
  let br ← getSymSlot d "breathing_difficulty"
  let fa ← getSymSlot d "fatigue"
  let lo ← getSymSlot d "loss_of_taste_smell"
  let cw ← getSymSlot d "contact_with_positive"
  Except.ok
    { name := n, fever := fe, cough := co, breathingDifficulty := br,
      fatigue := fa, lossOfTasteSmell := lo, contactWithPositive := cw }

/-- The result dictionary diagnose returns (source: diagnose return
value: patient_name, result, recommendation, risk_level as strings). -/
structure DiagnosisResult where
  patient_name : String
  result : String
  recommendation : String
  risk_level : String
deriving DecidableEq

/-- The result dictionary built from a diagnosis fact (source: diagnose,
the loop over env.facts()). -/
def toResult (d : DiagnosisFact) : DiagnosisResult :=
  { patient_name := d.patientName
    result := d.result
    recommendation := d.recommendation
    risk_level := d.riskLevel.toStr }

/-- The fallback result when no diagnosis fact exists (source: diagnose,
the dictionary returned when results is empty). -/
def fallbackResult (n : String) : DiagnosisResult :=
  { patient_name := n
    result := "Unable to diagnose"
    recommendation := "Please consult a healthcare professional"
    risk_level := "unknown" }

/-- Extraction of the returned result from the final store (source:
diagnose, results[0] if results else the fallback dictionary). -/
def extractDiagnosis (n : String) (s : List Fact) : DiagnosisResult :=
  match diagFacts s with
  | [] => fallbackResult n
  | d :: _ => toResult d

/-- The inference facade (source: CovidExpertSystem.diagnose): reset the
store, build and assert the observation fact, run the engine, extract the
first diagnosis fact or the fallback.  Returns the result (or the
invalid-input error) together with the final fact store. -/
def diagnose (prior : List Fact) (d : PatientData) : Except String DiagnosisResult × List Fact :=
  let s0 := resetStore prior
  match buildPatient d with
  | Except.error e => (Except.error e, s0)
  | Except.ok p =>
    let s1 := assertFact s0 (Fact.patient p)
    let s2 := (runEngine s1).1
    (Except.ok (extractDiagnosis p.name s2), s2)

/-- The chronological trace of fired (rule index, subject) pairs of one
diagnose call. -/
def diagnoseTrace (prior : List Fact) (d : PatientData) : List (Nat × String) :=
  let s0 := resetStore prior
  match buildPatient d with
  | Except.error _ => []
  | Except.ok p => (runEngine (assertFact s0 (Fact.patient p))).2

/-- String form of an observation symbol, as the GUI hands it over. -/
def Sym.toStr : Sym → String
  | .yes => "yes"
  | .no => "no"

/-- A well-formed patient_data dictionary for one subject. -/
def mkData (n : String) (fe co br fa lo cw : Sym) : PatientData :=
  [("name", n), ("fever", fe.toStr), ("cough", co.toStr),
   ("breathing_difficulty", br.toStr), ("fatigue", fa.toStr),
   ("loss_of_taste_smell", lo.toStr), ("contact_with_positive", cw.toStr)]

/-- Modelled from the spec: the index of the earliest-declared rule whose
positive conditions a patient fact satisfies (sections 4.4 and 9 describe
declared order as absolute priority).  This is the specification-side
characterisation the agenda is compared against. -/
def earliestSatisfiableRule (p : Patient) : Nat :=
  rules.findIdx fun r => r.guard p

/-- The rule at a declared position of the rule base. -/
def ruleAt (i : Nat) : RuleDef :=
  rules.getD i lowRiskAssessment

/-- A fact of the simple two-rule program PY.py: a symptom fact with a
name slot and a value slot (source: deftemplate symptom), or the ordered
diagnosis fact carrying its tag (source: assert diagnosis covid or
healthy). -/
inductive PYFact where
  | symptom (sname : String) (value : String)
  | diag (tag : String)
deriving DecidableEq

/-- Modelled from the spec: the Fact Store assert operation for the
two-rule program; duplicates are a no-op, insertion order is kept. -/
def pyAssert (s : List PYFact) (f : PYFact) : List PYFact :=
  if f ∈ s then s else s ++ [f]

/-- A symptom fact with the given name and value exists in the store. -/
def hasSymptom (s : List PYFact) (nm v : String) : Bool :=
  s.any fun f => decide (f = PYFact.symptom nm v)

/-- Positive conditions of covid-rule (source: PY.py defrule covid-rule):
a fever yes symptom fact and a cough yes symptom fact both exist. -/
def covidRuleGuard (s : List PYFact) : Bool :=
  hasSymptom s "fever" "yes" && hasSymptom s "cough" "yes"

/-- Positive conditions of healthy-rule (source: PY.py defrule
healthy-rule): a fever no symptom fact and a cough no symptom fact. -/
def healthyRuleGuard (s : List PYFact) : Bool :=
  hasSymptom s "fever" "no" && hasSymptom s "cough" "no"

/-- The rule base of PY.py in declared order: rule name, guard over the
store, fact asserted by the action. -/
def pyRules : List (String × (List PYFact → Bool) × PYFact) :=
  [("covid-rule", covidRuleGuard, PYFact.diag "covid"),
   ("healthy-rule", healthyRuleGuard, PYFact.diag "healthy")]

/-- Modelled from the spec: the agenda scan for the two-rule engine, in
declared order, suppressing rules already fired (the rules of PY.py have
no variables, so a binding is just the rule name). -/
def pyNextFirable : List (String × (List PYFact → Bool) × PYFact) → List PYFact → List String → Option (String × PYFact)
  | [], _, _ => none
  | (nm, g, f) :: rest, s, fired =>
    if g s && !(fired.any fun q => decide (q = nm)) then some (nm, f)
    else pyNextFirable rest s fired

/-- Modelled from the spec: the fixpoint execution loop for the two-rule
engine, with the defensive iteration guard as fuel. -/
def pyRunAux : Nat → List PYFact → List String → List PYFact
  | 0, s, _ => s
  | fuel + 1, s, fired =>
    match pyNextFirable pyRules s fired with
    | none => s
    | some (nm, f) => pyRunAux fuel (pyAssert s f) (nm :: fired)

/-- One full run of the two-rule engine, the model of env.run() inside
run_system. -/
def pyRun (s : List PYFact) : List PYFact := pyRunAux maxIterations s []

/-- The diagnosis tags currently in the store, in insertion order. -/
def pyDiagFacts : List PYFact → List String
  | [] => []
  | PYFact.symptom _ _ :: rest => pyDiagFacts rest
  | PYFact.diag t :: rest => t :: pyDiagFacts rest

/-- The diagnosis value after the scan over env.facts() (source: PY.py
run_system loop, where the diagnosis variable keeps the last matching
fact, staying None when there is none). -/
def lastDiag (s : List PYFact) : Option String :=
  (pyDiagFacts s).getLast?

/-- The inference function of PY.py (source: run_system): reset the
store, assert the two symptom facts from the form values, run the
engine, scan for a diagnosis fact and choose the message shown.  Returns
the message together with the final store. -/
def run_system (fever cough : String) : String × List PYFact :=
  let s1 := pyAssert [] (PYFact.symptom "fever" fever)
  let s2 := pyAssert s1 (PYFact.symptom "cough" cough)
  let s3 := pyRun s2
  let msg :=
    match lastDiag s3 with
    | some t =>
      if t = "covid" then "⚠ Possible COVID-19 infection."
      else if t = "healthy" then "✔ You appear healthy."
      else "No diagnosis."
    | none => "No diagnosis."
  (msg, s3)

/-- A well-formed subject dictionary parses to the corresponding patient
fact. -/
theorem buildPatient_mkData (n : String) (fe co br fa lo cw : Sym) :
    buildPatient (mkData n fe co br fa lo cw) =
      Except.ok ⟨n, fe, co, br, fa, lo, cw⟩ := by
  cases fe <;> cases co <;> cases br <;> cases fa <;> cases lo <;> cases cw <;> rfl

/-- Evaluation of one full engine run on a store holding exactly one
patient fact: exactly one rule fires, namely the earliest-declared rule
whose positive conditions the patient satisfies, and its action fact is
asserted. -/
theorem runEngine_eval (n : String) (fe co br fa lo cw : Sym) :
    runEngine [Fact.patient ⟨n, fe, co, br, fa, lo, cw⟩] =
      (assertFact [Fact.patient ⟨n, fe, co, br, fa, lo, cw⟩]
        (Fact.diagnosis ((ruleAt (earliestSatisfiableRule ⟨n, fe, co, br, fa, lo, cw⟩)).act n)),
       [(earliestSatisfiableRule ⟨n, fe, co, br, fa, lo, cw⟩, n)]) := by
  cases fe <;> cases co <;> cases br <;> cases fa <;> cases lo <;> cases cw <;>
    simp [runEngine, maxIterations, runAux, nextFirable, nextFirableFrom, survivors,
      patientFacts, diagFacts, negSatisfied, notYetFired, firstNewBinding, rules,
      criticalCase, highRiskCovidBreathing, highRiskCovidTasteSmell,
      mediumRiskFeverFatigue, mediumRiskCoughFatigue, mediumRiskContactFever,
      mediumRiskContactCough, lowRiskAssessment, assertFact,
      earliestSatisfiableRule, ruleAt, List.findIdx_cons]

/-- Evaluation of a whole diagnose call on a well-formed subject record:
the returned result is built from the action of the earliest-declared
satisfiable rule, and the final store holds the observation fact followed
by that one diagnosis fact. -/
theorem diagnose_eval (prior : List Fact) (n : String) (fe co br fa lo cw : Sym) :
    diagnose prior (mkData n fe co br fa lo cw) =
      (Except.ok (toResult ((ruleAt (earliestSatisfiableRule ⟨n, fe, co, br, fa, lo, cw⟩)).act n)),
       [Fact.patient ⟨n, fe, co, br, fa, lo, cw⟩,
        Fact.diagnosis ((ruleAt (earliestSatisfiableRule ⟨n, fe, co, br, fa, lo, cw⟩)).act n)]) := by
  simp [diagnose, buildPatient_mkData, resetStore, runEngine_eval, assertFact,
    extractDiagnosis, diagFacts, patientFacts]

/-- Evaluation of the fired trace of a whole diagnose call on a
well-formed subject record: exactly one pair fires, the earliest-declared
satisfiable rule with the subject name as its binding. -/
theorem diagnoseTrace_eval (prior : List Fact) (n : String) (fe co br fa lo cw : Sym) :
    diagnoseTrace prior (mkData n fe co br fa lo cw) =
      [(earliestSatisfiableRule ⟨n, fe, co, br, fa, lo, cw⟩, n)] := by
  simp [diagnoseTrace, buildPatient_mkData, resetStore, runEngine_eval, assertFact]

/-- C1: for every valid subject record, the fired trace of a diagnose
call is exactly one (rule, binding) pair whose rule is the
earliest-declared rule whose positive conditions the subject satisfies.
In particular no lower-priority rule ever fires for the subject after a
higher-priority rule has asserted a diagnosis fact for it: every firing
asserts a diagnosis fact, and nothing fires after the first firing. -/
theorem highest_priority_rule_fires_once (prior : List Fact) (n : String)
    (fe co br fa lo cw : Sym) :
    diagnoseTrace prior (mkData n fe co br fa lo cw) =
      [(earliestSatisfiableRule ⟨n, fe, co, br, fa, lo, cw⟩, n)] :=
  diagnoseTrace_eval prior n fe co br fa lo cw

/-- C2: after the engine run inside a diagnose call on a valid subject
record, the fact store contains at most one diagnosis fact per subject
identifier. -/
theorem at_most_one_diagnosis_per_subject (prior : List Fact) (n m : String)
    (fe co br fa lo cw : Sym) :
    ((diagFacts (diagnose prior (mkData n fe co br fa lo cw)).2).filter
      (fun d => decide (d.patientName = m))).length ≤ 1 := by
  simp [diagnose_eval, diagFacts]
  exact le_trans (List.length_filter_le _ _) (by simp)

/-- C3: every subject record with fever yes, cough yes, breathing
difficulty yes and fatigue yes, whatever the two remaining observations
are, is diagnosed with risk level critical, not high. -/
theorem critical_not_high (prior : List Fact) (n : String) (lo cw : Sym) :
    Except.map DiagnosisResult.risk_level
      (diagnose prior (mkData n Sym.yes Sym.yes Sym.yes Sym.yes lo cw)).1 =
      Except.ok "critical" := by
  simp [diagnose_eval, earliestSatisfiableRule, rules, List.findIdx_cons,
    criticalCase, ruleAt, toResult, Risk.toStr, Except.map]

/-- C4: every subject record with fever yes, cough yes, breathing
difficulty yes and fatigue no is diagnosed by the breathing-variant
high-risk rule: risk level high with result HIGH RISK for COVID-19; the
critical rule does not fire. -/
theorem breathing_variant_fires (prior : List Fact) (n : String) (lo cw : Sym) :
    Except.map (fun r => (r.result, r.risk_level))
      (diagnose prior (mkData n Sym.yes Sym.yes Sym.yes Sym.no lo cw)).1 =
      Except.ok ("HIGH RISK for COVID-19", "high") := by
  simp [diagnose_eval, earliestSatisfiableRule, rules, List.findIdx_cons,
    criticalCase, highRiskCovidBreathing, ruleAt, toResult, Risk.toStr, Except.map]

/-- C5: the subject record with all six observations no is diagnosed by
the default rule: risk level low with result LOW RISK for COVID-19. -/
theorem all_no_gives_low_risk (prior : List Fact) (n : String) :
    Except.map (fun r => (r.result, r.risk_level))
      (diagnose prior (mkData n Sym.no Sym.no Sym.no Sym.no Sym.no Sym.no)).1 =
      Except.ok ("LOW RISK for COVID-19", "low") := by
  simp [diagnose_eval, earliestSatisfiableRule, rules, List.findIdx_cons,
    criticalCase, highRiskCovidBreathing, highRiskCovidTasteSmell,
    mediumRiskFeverFatigue, mediumRiskCoughFatigue, mediumRiskContactFever,
    mediumRiskContactCough, lowRiskAssessment, ruleAt, toResult, Risk.toStr, Except.map]

/-- C6: when the fact store holds no diagnosis fact, the extraction step
of diagnose returns the defined fallback result, with result Unable to
diagnose, risk level unknown and the generic recommendation; and on any
record that validates, diagnose returns normally the extraction of the
final store, raising no error. -/
theorem fallback_when_no_diagnosis_fact (n : String) (s prior : List Fact)
    (d : PatientData) (p : Patient)
    (hs : diagFacts s = []) (hp : buildPatient d = Except.ok p) :
    extractDiagnosis n s =
      { patient_name := n, result := "Unable to diagnose",
        recommendation := "Please consult a healthcare professional",
        risk_level := "unknown" } ∧
    (diagnose prior d).1 = Except.ok (extractDiagnosis p.name (diagnose prior d).2) := by
  constructor
  · simp [extractDiagnosis, hs, fallbackResult]
  · simp [diagnose, hp]

/-- Witness for C6 at a concrete empty store and a concrete valid
record. -/
theorem fallback_when_no_diagnosis_fact_witness :
    diagFacts [] = [] ∧
    buildPatient (mkData "Bob" Sym.no Sym.no Sym.no Sym.no Sym.no Sym.no) =
      Except.ok ⟨"Bob", Sym.no, Sym.no, Sym.no, Sym.no, Sym.no, Sym.no⟩ ∧
    (extractDiagnosis "Alice" [] =
      { patient_name := "Alice", result := "Unable to diagnose",
        recommendation := "Please consult a healthcare professional",
        risk_level := "unknown" } ∧
     (diagnose [] (mkData "Bob" Sym.no Sym.no Sym.no Sym.no Sym.no Sym.no)).1 =
       Except.ok (extractDiagnosis "Bob"
         (diagnose [] (mkData "Bob" Sym.no Sym.no Sym.no Sym.no Sym.no Sym.no)).2)) :=
  ⟨rfl, rfl, fallback_when_no_diagnosis_fact "Alice" [] [] _ _ rfl rfl⟩

/-- C7: a subject record with an observation value outside yes and no, or
with a required slot missing, makes diagnose fail with the descriptive
invalid-input error; the rejection happens before any fact is asserted,
so the fact store is exactly the reset store, holding no patient fact and
no diagnosis fact. -/
theorem invalid_input_rejected (prior : List Fact) (d : PatientData) (e : String)
    (h : buildPatient d = Except.error e) :
    (diagnose prior d).1 = Except.error e ∧
    (diagnose prior d).2 = resetStore prior ∧
    patientFacts (diagnose prior d).2 = [] ∧
    diagFacts (diagnose prior d).2 = [] := by
  refine ⟨?_, ?_, ?_, ?_⟩ <;> simp [diagnose, h, resetStore, patientFacts, diagFacts]

/-- Witness for C7 at a concrete record whose fever value is not an
allowed symbol. -/
theorem invalid_input_rejected_witness :
    buildPatient [("name", "Alice"), ("fever", "maybe")] =
      Except.error "InvalidInput: value for slot fever must be yes or no, got maybe" ∧
    ((diagnose [] [("name", "Alice"), ("fever", "maybe")]).1 =
        Except.error "InvalidInput: value for slot fever must be yes or no, got maybe" ∧
      (diagnose [] [("name", "Alice"), ("fever", "maybe")]).2 = resetStore [] ∧
      patientFacts (diagnose [] [("name", "Alice"), ("fever", "maybe")]).2 = [] ∧
      diagFacts (diagnose [] [("name", "Alice"), ("fever", "maybe")]).2 = []) :=
  ⟨rfl, invalid_input_rejected [] _ _ rfl⟩

/-- C8: the result of diagnose depends on the subject record alone: the
store left by earlier calls, for the same or any other subject, never
changes the outcome, because the store is reset at the start of every
call; in particular a call made right after diagnosing another subject
equals a call made on any prior state. -/
theorem diagnose_function_of_record_alone (prior1 prior2 : List Fact)
    (dA d : PatientData) :
    diagnose prior1 d = diagnose prior2 d ∧
    diagnose (diagnose prior1 dA).2 d = diagnose prior1 d :=
  ⟨rfl, rfl⟩

/-- C9: on every valid subject record some rule fires, so diagnose never
returns the Unable to diagnose fallback and the returned risk level is
one of critical, high, medium and low, never unknown. -/
theorem valid_record_always_diagnosed (prior : List Fact) (n : String)
    (fe co br fa lo cw : Sym) :
    (Except.map DiagnosisResult.risk_level (diagnose prior (mkData n fe co br fa lo cw)).1 ∈
      [Except.ok "critical", Except.ok "high", Except.ok "medium",
       (Except.ok "low" : Except String String)]) ∧
    Except.map DiagnosisResult.result (diagnose prior (mkData n fe co br fa lo cw)).1 ≠
      Except.ok "Unable to diagnose" ∧
    Except.map DiagnosisResult.risk_level (diagnose prior (mkData n fe co br fa lo cw)).1 ≠
      Except.ok "unknown" := by
  cases fe <;> cases co <;> cases br <;> cases fa <;> cases lo <;> cases cw <;>
    simp [diagnose_eval, earliestSatisfiableRule, rules, List.findIdx_cons,
      criticalCase, highRiskCovidBreathing, highRiskCovidTasteSmell,
      mediumRiskFeverFatigue, mediumRiskCoughFatigue, mediumRiskContactFever,
      mediumRiskContactCough, lowRiskAssessment, ruleAt, toResult, Risk.toStr, Except.map]

/-- C10: in the two-rule program, when exactly one of fever and cough is
yes and the other is no, neither covid-rule nor healthy-rule fires, no
diagnosis fact exists after the run, and run_system reports No
diagnosis. -/
theorem mixed_symptoms_no_diagnosis :
    (run_system "yes" "no").1 = "No diagnosis." ∧
    pyDiagFacts (run_system "yes" "no").2 = [] ∧
    (run_system "no" "yes").1 = "No diagnosis." ∧
    pyDiagFacts (run_system "no" "yes").2 = [] :=
  ⟨rfl, rfl, rfl, rfl⟩

end Covid
